import Mathlib

/-!
Shallow embedding of `src/dataman/vis/Buffer.py`: the shared-memory buffer
(`Buffer`), its header (`BufferHeader`), the type registry (`datatypes`) and
the error type (`BufferError`), together with the numpy slice/broadcast
semantics the methods rely on.  Sample values are modelled as `Int` (the
stored dtype only affects sizes), sample indices as `Nat`.
-/

namespace Dataman

/-- exception raised by an operation of Buffer.py: a `BufferError code`, or one
of the builtin Python exceptions that ctypes / numpy / dict lookups raise. -/
inductive PyErr where
  | bufferError (code : Nat)
  | attributeError
  | valueError
  | typeError
  | keyError
  deriving DecidableEq

/-- ctypes structure `BufferHeader` with fields `bufSizeBytes : c_ulong`,
`dataType : c_uint`, `nChannels : c_ulong`, `nSamples : c_ulong`. -/
structure BufferHeader where
  bufSizeBytes : Nat
  dataType : Nat
  nChannels : Nat
  nSamples : Nat
  deriving DecidableEq

/-- sizeof(BufferHeader) with `_pack_ = 1` on a 64-bit platform:
c_ulong (8) + c_uint (4) + c_ulong (8) + c_ulong (8) bytes. -/
def headerSize : Nat := 28

/-- the registry `datatypes.types = {0: 'float32', 1: 'int16'}`. -/
def datatypes_types : List (Nat × String) := [(0, "float32"), (1, "int16")]

/-- datatypes.get_code: reverse lookup of a numpy type name in the registry;
`none` models the ValueError that `list.index` raises on a missing value. -/
def datatypes_get_code (ndtype : String) : Option Nat :=
  (datatypes_types.find? (fun p => p.2 == ndtype)).map (fun p => p.1)

/-- datatypes.get_type: dictionary lookup of a type code; `none` models the
KeyError a missing key raises. -/
def datatypes_get_type (code : Nat) : Option String :=
  (datatypes_types.find? (fun p => p.1 == code)).map (fun p => p.2)

/-- np.dtype(name).itemsize for the numpy scalar names that can reach the
buffer; `none` models np.dtype raising TypeError on an unknown name. -/
def npDtypeItemsize : String → Option Nat
  | "float32" => some 4
  | "int16" => some 2
  | "float64" => some 8
  | "int64" => some 8
  | _ => none

/-- byte width of a registered type code, i.e. the itemsize of the numpy type
the registry maps the code to (the spec's `byteWidth(typeCode)`). -/
def byteWidth (code : Nat) : Option Nat :=
  (datatypes_get_type code).bind npDtypeItemsize

/-- numpy basic slice `row[start:stop]` for nonnegative bounds: both bounds
are clamped to the length, an empty or reversed range gives the empty list. -/
def npGetSlice (row : List Int) (start stop : Nat) : List Int :=
  (row.take stop).drop start

/-- overwrite positions `[s, s + vals.length)` of `row` with `vals`; callers
pass values that fit, mirroring a numpy slice assignment after clamping. -/
def npSetSlice (row : List Int) (s : Nat) (vals : List Int) : List Int :=
  row.take s ++ vals ++ row.drop (s + vals.length)

/-- shape of a rectangular 2-D numpy array given as its list of rows. -/
def np2dShape (rows : List (List Int)) : Nat × Nat :=
  (rows.length, (rows.headD []).length)

/-- materialize the source of an assignment whose target has shape
`(nCh, w)`: a source dimension must equal the target dimension or 1 (numpy
broadcasting, size-1 dimensions are replicated); `none` models the ValueError
numpy raises on an incompatible broadcast. -/
def broadcastTo (rows : List (List Int)) (nCh w : Nat) : Option (List (List Int)) :=
  let r := (np2dShape rows).1
  let c := (np2dShape rows).2
  if (r = nCh ∨ r = 1) ∧ (c = w ∨ c = 1) then
    some ((List.range nCh).map (fun i =>
      (List.range w).map (fun j =>
        (rows.getD (if r = 1 then 0 else i) []).getD (if c = 1 then 0 else j) 0)))
  else none

/-- reshape a flat element list into `nRows` rows of `nCols` columns in
row-major order, as `np.frombuffer(...).reshape((-1, nCols))` lays out the
view (`nRows` is the quotient the caller computed). -/
def reshapeRows (flat : List Int) (nRows nCols : Nat) : List (List Int) :=
  (List.range nRows).map (fun i => (flat.drop (i * nCols)).take nCols)

/-- shared raw byte array, viewed through its two regions: the header record
at offset 0 and the data region reinterpreted as typed elements. -/
structure Raw where
  hdr : BufferHeader
  flat : List Int
  deriving DecidableEq

/-- per-process `Buffer` object: `__initialized` plus the private instance
attributes the methods assign; an attribute that was never assigned is `none`,
matching a missing name in the Python instance dictionary. -/
structure PyBuffer where
  initialized : Bool
  raw? : Option Raw := none
  hdr? : Option BufferHeader := none
  buf? : Option (List (List Int)) := none
  nChannels? : Option Nat := none
  bufSize? : Option Nat := none
  nptype? : Option String := none
  nSamples? : Option Nat := none
  deriving DecidableEq

/-- Buffer.__init__: records the logger and sets `__initialized = False`; no
data attribute exists yet. -/
def mkBuffer : PyBuffer := { initialized := false }

/-- lookup of a private instance attribute as Buffer.__getattr__ mediates it:
an attribute that exists is returned by normal lookup; a missing one triggers
`__getattr__`, which raises BufferError(1) before initialization and lets
`object.__getattribute__` raise AttributeError after it. -/
def getAttrPriv {A : Type} (b : PyBuffer) (field : Option A) : Except PyErr A :=
  match field with
  | some v => Except.ok v
  | none =>
      if b.initialized then Except.error PyErr.attributeError
      else Except.error (PyErr.bufferError 1)

/-- read-only property `raw`. -/
def prop_raw (b : PyBuffer) : Except PyErr Raw := getAttrPriv b b.raw?

/-- read-only property `nChannels`. -/
def prop_nChannels (b : PyBuffer) : Except PyErr Nat := getAttrPriv b b.nChannels?

/-- read-only property `nSamples` (reads the never-assigned `__nSamples`). -/
def prop_nSamples (b : PyBuffer) : Except PyErr Nat := getAttrPriv b b.nSamples?

/-- read-only property `bufSize`. -/
def prop_bufSize (b : PyBuffer) : Except PyErr Nat := getAttrPriv b b.bufSize?

/-- read-only property `nptype`. -/
def prop_nptype (b : PyBuffer) : Except PyErr String := getAttrPriv b b.nptype?

/-- Buffer.initialize_from_raw (the source's `initialize`, a reserved word
here, delegates to it): reads all metadata from the header region of `raw` and
builds the numpy view `np.frombuffer(raw, nptype, bufFlatSize, bufOffset)
.reshape((-1, hdr.nSamples))` plus the helper attributes.  The error branches
(unknown dtype code, a buffer too short for the requested element count, a
reshape that does not divide) model the Python exception each raises; they are
unreachable for a raw array produced by the initializer.  The source sets
`__initialized = True` before reading the header, so in Python a failing call
leaves the flag set; that partial state is observable only through those
unreachable branches and is not modelled. -/
def initialize_from_raw (b : PyBuffer) (raw : Raw) : Except PyErr PyBuffer :=
  match datatypes_get_type raw.hdr.dataType with
  | none => Except.error PyErr.keyError
  | some nptype =>
      match npDtypeItemsize nptype with
      | none => Except.error PyErr.typeError
      | some isz =>
          if raw.flat.length < raw.hdr.bufSizeBytes / isz then Except.error PyErr.valueError
          else if raw.hdr.nSamples = 0 ∨ ¬ (raw.hdr.nSamples ∣ raw.hdr.bufSizeBytes / isz) then
            Except.error PyErr.valueError
          else
            Except.ok { b with
                        initialized := true
                        raw? := some raw
                        hdr? := some raw.hdr
                        buf? := some (reshapeRows (raw.flat.take (raw.hdr.bufSizeBytes / isz))
                                        (raw.hdr.bufSizeBytes / isz / raw.hdr.nSamples)
                                        raw.hdr.nSamples)
                        nChannels? := some raw.hdr.nChannels
                        bufSize? := some (reshapeRows (raw.flat.take (raw.hdr.bufSizeBytes / isz))
                                            (raw.hdr.bufSizeBytes / isz / raw.hdr.nSamples)
                                            raw.hdr.nSamples).length
                        nptype? := some nptype }

/-- Buffer.initialize: validates the dimensions (BufferError(1) when either is
below 1), computes `sizeBytes = sizeof(BufferHeader) + nSamples * nChannels *
np.dtype(nptype).itemsize` (np.dtype raises TypeError on an unknown numpy
name), allocates the zero-initialized shared array `Array('c', sizeBytes)`,
writes the header fields (`datatypes.get_code` raises ValueError on a numpy
type with no registered code), and ends in `initialize_from_raw`.  The data
region holds `(sizeBytes - headerSize) / itemsize = nSamples * nChannels`
zero elements. -/
def initialize_buffer (b : PyBuffer) (nChannels nSamples : Int) (nptype : String) :
    Except PyErr PyBuffer :=
  if nChannels < 1 ∨ nSamples < 1 then Except.error (PyErr.bufferError 1)
  else
    match npDtypeItemsize nptype with
    | none => Except.error PyErr.typeError
    | some isz =>
        match datatypes_get_code nptype with
        | none => Except.error PyErr.valueError
        | some code =>
            initialize_from_raw b
              { hdr := { bufSizeBytes :=
                           headerSize + nSamples.toNat * nChannels.toNat * isz - headerSize
                         dataType := code
                         nChannels := nChannels.toNat
                         nSamples := nSamples.toNat }
                flat := List.replicate (nSamples.toNat * nChannels.toNat) 0 }

/-- Buffer.check_availablility (name as in the source): the docstring promises
codes 0 to 3 judged against write progress, but the body only compares the two
indices: `some 0` when `start < end` and the bare Python `None` (here `none`)
otherwise; the richer classification is commented out in the source and no
cursor is consulted. -/
def check_availablility (start stop : Nat) : Option Nat :=
  if start < stop then some 0 else none

/-- truthiness of the availability result as `not av_error` evaluates it in
Python: both None and 0 are falsy. -/
def avFalsy : Option Nat → Bool
  | none => true
  | some c => c == 0

/-- Buffer.__read_buffer: raises BufferError(av_error) only when
check_availablility returns a truthy code, which it never does; otherwise it
returns the (possibly empty) column window `self.__buf[:, start:end]`. -/
def read_buffer (b : PyBuffer) (start stop : Nat) : Except PyErr (List (List Int)) :=
  let avError := check_availablility start stop
  if avFalsy avError then
    (getAttrPriv b b.buf?).map (fun rows => rows.map (fun row => npGetSlice row start stop))
  else Except.error (PyErr.bufferError (avError.getD 0))

/-- numpy view handed out by get_data: the column window over the buffer plus
the writeable flag set by `setflags(write = not wprotect)`. -/
structure NpView where
  vstart : Nat
  vstop : Nat
  writeable : Bool
  deriving DecidableEq

/-- Buffer.get_data: reads through __read_buffer and flips the write flag of
the returned view. -/
def get_data (b : PyBuffer) (start stop : Nat) (wprotect : Bool) : Except PyErr NpView :=
  (read_buffer b start stop).map
    (fun _ => { vstart := start, vstop := stop, writeable := !wprotect })

/-- contents a view shows over the current buffer matrix. -/
def viewData (b : PyBuffer) (v : NpView) : List (List Int) :=
  (b.buf?.getD []).map (fun row => npGetSlice row v.vstart v.vstop)

/-- element assignment `view[i, j] = x` through a numpy view: on a read-only
view numpy raises ValueError (assignment destination is read-only) and touches
nothing; on a writable view the store lands in the underlying buffer at row
`i`, column `vstart + j`, with out-of-window indices rejected. -/
def view_setitem (b : PyBuffer) (v : NpView) (i j : Nat) (x : Int) :
    Except PyErr PyBuffer :=
  if v.writeable then
    match b.buf? with
    | none => Except.error PyErr.attributeError
    | some rows =>
        if i < rows.length ∧ v.vstart + j < v.vstop ∧
            v.vstart + j < (rows.getD i []).length then
          Except.ok { b with buf? := some (rows.set i ((rows.getD i []).set (v.vstart + j) x)) }
        else Except.error PyErr.valueError
  else Except.error PyErr.valueError

/-- state of the buffer object after an attempted view assignment: when the
assignment raises, the Python object is left exactly as it was. -/
def trySetitem (b : PyBuffer) (v : NpView) (i j : Nat) (x : Int) : PyBuffer :=
  match view_setitem b v i j x with
  | Except.ok b2 => b2
  | Except.error _ => b

/-- data argument of put_data: a one- or two-dimensional numpy array. -/
inductive NpData where
  | one (vals : List Int)
  | two (rows : List (List Int))
  deriving DecidableEq

/-- len(data): the leading dimension of the array. -/
def npLen : NpData → Nat
  | NpData.one vals => vals.length
  | NpData.two rows => rows.length

/-- Buffer.__write_buffer called with an explicit end:
`self.__buf[:, start:end] = data`, with numpy clamping both slice bounds to
the column count and broadcasting the source into the clamped window. -/
def write_buffer (b : PyBuffer) (data : NpData) (start stop : Nat) :
    Except PyErr PyBuffer :=
  (getAttrPriv b b.buf?).bind (fun rows =>
    let n := (rows.headD []).length
    let s := min start n
    let w := min stop n - s
    let src? := match data with
      | NpData.one vals => broadcastTo [vals] rows.length w
      | NpData.two drows => broadcastTo drows rows.length w
    match src? with
    | none => Except.error PyErr.valueError
    | some src =>
        Except.ok { b with buf? := some ((rows.zip src).map (fun p => npSetSlice p.1 s p.2)) })

/-- Buffer.put_data: for a 2-D argument the guard compares `data.shape[1]`
(the column count) with nChannels and raises BufferError(4) on mismatch; a 1-D
argument requires nChannels == 1; then `end = start + len(data)` (the leading
dimension) is passed to __write_buffer. -/
def put_data (b : PyBuffer) (data : NpData) (start : Nat) : Except PyErr PyBuffer :=
  match data with
  | NpData.two rows =>
      (prop_nChannels b).bind (fun nCh =>
        if (np2dShape rows).2 ≠ nCh then Except.error (PyErr.bufferError 4)
        else write_buffer b data start (start + npLen data))
  | NpData.one _ =>
      (prop_nChannels b).bind (fun nCh =>
        if nCh ≠ 1 then Except.error (PyErr.bufferError 4)
        else write_buffer b data start (start + npLen data))

/-- raw array produced by the specification scenario
create(channelCount=2, sampleCapacity=15, typeName=float32). -/
def demoRaw : Raw :=
  { hdr := { bufSizeBytes := 120, dataType := 0, nChannels := 2, nSamples := 15 }
    flat := List.replicate 30 0 }

/-- buffer object the specification scenario yields. -/
def demoBuf : PyBuffer :=
  { initialized := true
    raw? := some demoRaw
    hdr? := some demoRaw.hdr
    buf? := some (List.replicate 2 (List.replicate 15 0))
    nChannels? := some 2
    bufSize? := some 2
    nptype? := some "float32"
    nSamples? := none }

deriving instance DecidableEq for Except

/-!  Theorems settling the claims. -/

/-- check_availablility always evaluates as falsy under `not av_error`: it
returns either `some 0` or `none`. -/
theorem avFalsy_check (start stop : Nat) : avFalsy (check_availablility start stop) = true := by
  unfold check_availablility
  split <;> rfl

/-- a numpy type name with a registered code is float32 or int16. -/
theorem datatypes_get_code_cases (s : String) (h : datatypes_get_code s ≠ none) :
    s = "float32" ∨ s = "int16" := by
  by_contra hc
  push_neg at hc
  apply h
  unfold datatypes_get_code datatypes_types
  have g1 : (("float32" : String) == s) = false := by
    simp only [beq_eq_false_iff_ne]
    exact fun e => hc.1 e.symm
  have g2 : (("int16" : String) == s) = false := by
    simp only [beq_eq_false_iff_ne]
    exact fun e => hc.2 e.symm
  simp [List.find?, g1, g2]

/-- reshaping a zero region of nCols * nRows elements gives nRows zero rows. -/
theorem reshapeRows_replicate (nRows nCols : Nat) :
    reshapeRows (List.replicate (nCols * nRows) (0 : Int)) nRows nCols =
      List.replicate nRows (List.replicate nCols 0) := by
  unfold reshapeRows
  apply List.eq_replicate_iff.mpr
  refine ⟨by simp, ?_⟩
  intro row hrow
  simp only [List.mem_map, List.mem_range] at hrow
  obtain ⟨i, hi, hrow⟩ := hrow
  subst hrow
  rw [List.drop_replicate, List.take_replicate]
  have h2 : nCols + i * nCols ≤ nCols * nRows := by
    calc nCols + i * nCols = (i + 1) * nCols := by ring
      _ ≤ nRows * nCols := Nat.mul_le_mul_right _ hi
      _ = nCols * nRows := Nat.mul_comm _ _
  rw [Nat.min_eq_left (Nat.le_sub_of_add_le h2)]

/-- evaluation of initialize_from_raw on the raw array the initializer builds:
a header advertising nS * nCh elements of width isz over a zero-filled data
region yields the fully populated buffer object. -/
theorem initialize_from_raw_replicate (b0 : PyBuffer) (nCh nS code isz : Nat)
    (nptype : String) (hs : 0 < nS)
    (ht : datatypes_get_type code = some nptype)
    (hi : npDtypeItemsize nptype = some isz) (hisz : 0 < isz) :
    initialize_from_raw b0
        { hdr := { bufSizeBytes := nS * nCh * isz, dataType := code
                   nChannels := nCh, nSamples := nS }
          flat := List.replicate (nS * nCh) 0 } =
      Except.ok { b0 with
                  initialized := true
                  raw? := some { hdr := { bufSizeBytes := nS * nCh * isz, dataType := code
                                          nChannels := nCh, nSamples := nS }
                                 flat := List.replicate (nS * nCh) 0 }
                  hdr? := some { bufSizeBytes := nS * nCh * isz, dataType := code
                                 nChannels := nCh, nSamples := nS }
                  buf? := some (List.replicate nCh (List.replicate nS 0))
                  nChannels? := some nCh
                  bufSize? := some nCh
                  nptype? := some nptype } := by
  have e1 : nS * nCh * isz / isz = nS * nCh := Nat.mul_div_cancel _ hisz
  have e2 : nS * nCh / nS = nCh := Nat.mul_div_cancel_left _ hs
  simp only [initialize_from_raw, ht, hi, e1, e2, List.length_replicate, lt_irrefl,
    if_false, List.take_replicate, Nat.min_self, reshapeRows_replicate, hs.ne',
    dvd_mul_right, not_true, or_self, false_or, not_false_iff, ite_false]

/-- evaluation of a valid initialize call starting from a fresh object. -/
theorem initialize_buffer_ok (nChannels nSamples : Int) (nptype : String) (code isz : Nat)
    (h1 : 1 ≤ nChannels) (h2 : 1 ≤ nSamples)
    (hc : datatypes_get_code nptype = some code)
    (ht : datatypes_get_type code = some nptype)
    (hi : npDtypeItemsize nptype = some isz) (hisz : 0 < isz) :
    initialize_buffer mkBuffer nChannels nSamples nptype =
      Except.ok { initialized := true
                  raw? := some { hdr := { bufSizeBytes := nSamples.toNat * nChannels.toNat * isz
                                          dataType := code
                                          nChannels := nChannels.toNat
                                          nSamples := nSamples.toNat }
                                 flat := List.replicate (nSamples.toNat * nChannels.toNat) 0 }
                  hdr? := some { bufSizeBytes := nSamples.toNat * nChannels.toNat * isz
                                 dataType := code
                                 nChannels := nChannels.toNat
                                 nSamples := nSamples.toNat }
                  buf? := some (List.replicate nChannels.toNat (List.replicate nSamples.toNat 0))
                  nChannels? := some nChannels.toNat
                  bufSize? := some nChannels.toNat
                  nptype? := some nptype
                  nSamples? := none } := by
  have hcond : ¬ (nChannels < 1 ∨ nSamples < 1) := by omega
  have hsize : headerSize + nSamples.toNat * nChannels.toNat * isz - headerSize =
      nSamples.toNat * nChannels.toNat * isz := by omega
  unfold initialize_buffer
  rw [if_neg hcond, hi, hc]
  simp only [hsize]
  exact initialize_from_raw_replicate mkBuffer nChannels.toNat nSamples.toNat code isz nptype
    (by omega) ht hi hisz

/-- a create call with a nonpositive dimension or an unregistered type name
raises some exception. -/
theorem initialize_buffer_error (nChannels nSamples : Int) (nptype : String)
    (h : nChannels < 1 ∨ nSamples < 1 ∨ datatypes_get_code nptype = none) :
    ∃ e, initialize_buffer mkBuffer nChannels nSamples nptype = Except.error e := by
  by_cases hlt : nChannels < 1 ∨ nSamples < 1
  · refine ⟨PyErr.bufferError 1, ?_⟩
    unfold initialize_buffer
    rw [if_pos hlt]
  · have hcode : datatypes_get_code nptype = none := by tauto
    unfold initialize_buffer
    rw [if_neg hlt]
    cases hii : npDtypeItemsize nptype with
    | none => exact ⟨PyErr.typeError, rfl⟩
    | some isz =>
        refine ⟨PyErr.valueError, ?_⟩
        rw [hcode]

/-- C1: the claim says check_availablility returns one of four distinct
classifications, and that against publishedCursor=10, bufferCapacity=100 the
range [5,8) is FULLY_AVAILABLE, [8,12) PARTIALLY_AVAILABLE and [12,15)
NEEDS_LOAD.  The code consults no cursor at all and is two-valued: every range
with start < end (all three scenario ranges included) gets code 0 and every
other range gets the bare None, so the documented classification it should
compute never appears. -/
theorem C1_check_availablility_two_valued :
    check_availablility 5 8 = some 0 ∧
    check_availablility 8 12 = some 0 ∧
    check_availablility 12 15 = some 0 ∧
    ∀ start stop : Nat,
      check_availablility start stop = some 0 ∨ check_availablility start stop = none := by
  refine ⟨rfl, rfl, rfl, fun start stop => ?_⟩
  unfold check_availablility
  split
  · exact Or.inl rfl
  · exact Or.inr rfl

/-- C2: the claim says a channelCount × (end-start) block written at `start`
reads back unchanged for every 0 ≤ start < end ≤ sampleCapacity.  On a
2-channel, 4-sample buffer the 2 × 3 block at columns [0,3) is instead
rejected with BufferError(4): put_data compares data.shape[1] = 3 (the width)
with nChannels = 2 and never reaches the write. -/
theorem C2_roundtrip_write_rejected :
    (initialize_buffer mkBuffer 2 4 "float32").bind
        (fun b => put_data b (NpData.two [[1, 2, 3], [4, 5, 6]]) 0) =
      Except.error (PyErr.bufferError 4) := by decide

/-- C3: the claim says get_data with end ≤ start raises and returns no usable
view.  The code returns a view: check_availablility yields the falsy None for
a reversed range, so __read_buffer's raise is dead code and get_data hands out
the empty window buf[:, 3:1] with its write flag cleared. -/
theorem C3_reversed_range_returns_view :
    (initialize_buffer mkBuffer 2 4 "float32").bind (fun b => read_buffer b 3 1) =
        Except.ok [[], []] ∧
      (initialize_buffer mkBuffer 2 4 "float32").bind (fun b => get_data b 3 1 true) =
        Except.ok { vstart := 3, vstop := 1, writeable := false } := by
  exact ⟨by decide, by decide⟩

/-- C4: the claim says a write whose row count differs from channelCount fails
with BufferError(4).  A 3 × 2 block on a 2-channel buffer (row count 3 ≠ 2)
passes the guard — which tests the column count, not the row count — and dies
later in the numpy broadcast of shape (3,2) into the (2,3) window with a
ValueError, not BufferError(4). -/
theorem C4_row_mismatch_not_shape_error :
    (initialize_buffer mkBuffer 2 4 "float32").bind
        (fun b => put_data b (NpData.two [[1, 2], [3, 4], [5, 6]]) 0) =
      Except.error PyErr.valueError := by decide

/-- C5: the claim says a write whose window exceeds sampleCapacity fails with
a RangeError.  No bounds check exists: on a 1-channel, 4-sample buffer the
1-element write at column 5 has its target slice clamped by numpy to width 0,
the length-1 source broadcasts into it, and the call succeeds silently without
writing anything — the state is returned unchanged. -/
theorem C5_out_of_range_write_silently_accepted :
    (initialize_buffer mkBuffer 1 4 "float32").bind
        (fun b => put_data b (NpData.one [7]) 5) =
      initialize_buffer mkBuffer 1 4 "float32" := by decide

/-- C9: every public read-only property of a freshly constructed, never
initialized Buffer raises BufferError(1) through __getattr__, and the data
operations get_data / put_data (whatever their arguments) fail the same way
before touching any data. -/
theorem C9_uninitialized_buffer_inaccessible (start stop : Nat) (data : NpData) :
    prop_raw mkBuffer = Except.error (PyErr.bufferError 1) ∧
    prop_nChannels mkBuffer = Except.error (PyErr.bufferError 1) ∧
    prop_nSamples mkBuffer = Except.error (PyErr.bufferError 1) ∧
    prop_bufSize mkBuffer = Except.error (PyErr.bufferError 1) ∧
    prop_nptype mkBuffer = Except.error (PyErr.bufferError 1) ∧
    read_buffer mkBuffer start stop = Except.error (PyErr.bufferError 1) ∧
    get_data mkBuffer start stop true = Except.error (PyErr.bufferError 1) ∧
    put_data mkBuffer data start = Except.error (PyErr.bufferError 1) := by
  have hread : read_buffer mkBuffer start stop = Except.error (PyErr.bufferError 1) := by
    simp only [read_buffer, avFalsy_check, if_true]
    rfl
  refine ⟨rfl, rfl, rfl, rfl, rfl, hread, ?_, ?_⟩
  · unfold get_data
    rw [hread]
    rfl
  · cases data <;> rfl

/-- C6: initialize fails (the code raises BufferError(1) for a nonpositive
dimension and TypeError or ValueError for an unregistered type name — the
failure modes the spec groups as ConfigError) exactly when channelCount < 1,
sampleCapacity < 1 or the type name has no registered code; for all other
arguments it succeeds and the allocated data region is zero-initialized. -/
theorem C6_create_validates_and_zero_fills (nChannels nSamples : Int) (nptype : String) :
    ((nChannels < 1 ∨ nSamples < 1 ∨ datatypes_get_code nptype = none) →
      ∃ e, initialize_buffer mkBuffer nChannels nSamples nptype = Except.error e) ∧
    (1 ≤ nChannels → 1 ≤ nSamples → datatypes_get_code nptype ≠ none →
      ∃ b, initialize_buffer mkBuffer nChannels nSamples nptype = Except.ok b ∧
        b.buf? = some (List.replicate nChannels.toNat (List.replicate nSamples.toNat 0))) := by
  refine ⟨initialize_buffer_error nChannels nSamples nptype, ?_⟩
  intro h1 h2 h3
  rcases datatypes_get_code_cases nptype h3 with hn | hn <;> subst hn
  · exact ⟨_, initialize_buffer_ok nChannels nSamples "float32" 0 4 h1 h2 rfl rfl rfl
      (by omega), rfl⟩
  · exact ⟨_, initialize_buffer_ok nChannels nSamples "int16" 1 2 h1 h2 rfl rfl rfl
      (by omega), rfl⟩

/-- C6 witness: create(0, 5, float32) fails; create(2, 3, float32) succeeds
with a 2 × 3 zero matrix. -/
theorem C6_witness :
    (∃ e, initialize_buffer mkBuffer 0 5 "float32" = Except.error e) ∧
    ∃ b, initialize_buffer mkBuffer 2 3 "float32" = Except.ok b ∧
      b.buf? = some (List.replicate 2 (List.replicate 3 0)) :=
  ⟨(C6_create_validates_and_zero_fills 0 5 "float32").1 (Or.inl (by decide)),
   (C6_create_validates_and_zero_fills 2 3 "float32").2 (by decide) (by decide) (by decide)⟩

/-- C7: after a valid create, the stored header satisfies
dataSizeBytes = channelCount * sampleCapacity * byteWidth(typeCode), and a
second buffer view attached to the same raw region observes exactly the same
header fields (and the same derived matrix and type) as the creating view. -/
theorem C7_header_invariant_and_attach (nChannels nSamples : Int) (nptype : String)
    (b : PyBuffer) (h1 : 1 ≤ nChannels) (h2 : 1 ≤ nSamples)
    (h : initialize_buffer mkBuffer nChannels nSamples nptype = Except.ok b) :
    ∃ hdr raw w b2,
      b.hdr? = some hdr ∧
      byteWidth hdr.dataType = some w ∧
      hdr.bufSizeBytes = hdr.nChannels * hdr.nSamples * w ∧
      prop_raw b = Except.ok raw ∧
      initialize_from_raw mkBuffer raw = Except.ok b2 ∧
      b2.hdr? = some hdr ∧ b2.nChannels? = b.nChannels? ∧
      b2.buf? = b.buf? ∧ b2.nptype? = b.nptype? := by
  have h3 : datatypes_get_code nptype ≠ none := by
    intro hnone
    obtain ⟨e, he⟩ := initialize_buffer_error nChannels nSamples nptype (Or.inr (Or.inr hnone))
    rw [h] at he
    exact Except.noConfusion he
  rcases datatypes_get_code_cases nptype h3 with hn | hn <;> subst hn
  · have hb := initialize_buffer_ok nChannels nSamples "float32" 0 4 h1 h2 rfl rfl rfl (by omega)
    rw [h] at hb
    injection hb with hb
    subst hb
    refine ⟨_, _, 4, _, rfl, rfl, by ring, rfl,
      initialize_from_raw_replicate mkBuffer nChannels.toNat nSamples.toNat 0 4 "float32"
        (by omega) rfl rfl (by omega), rfl, rfl, rfl, rfl⟩
  · have hb := initialize_buffer_ok nChannels nSamples "int16" 1 2 h1 h2 rfl rfl rfl (by omega)
    rw [h] at hb
    injection hb with hb
    subst hb
    refine ⟨_, _, 2, _, rfl, rfl, by ring, rfl,
      initialize_from_raw_replicate mkBuffer nChannels.toNat nSamples.toNat 1 2 "int16"
        (by omega) rfl rfl (by omega), rfl, rfl, rfl, rfl⟩

/-- C7 witness: the scenario create(2, 15, float32): header invariant
120 = 2 * 15 * 4 and an identical header seen through a second attach. -/
theorem C7_witness :
    ∃ hdr raw w b2,
      demoBuf.hdr? = some hdr ∧
      byteWidth hdr.dataType = some w ∧
      hdr.bufSizeBytes = hdr.nChannels * hdr.nSamples * w ∧
      prop_raw demoBuf = Except.ok raw ∧
      initialize_from_raw mkBuffer raw = Except.ok b2 ∧
      b2.hdr? = some hdr ∧ b2.nChannels? = demoBuf.nChannels? ∧
      b2.buf? = demoBuf.buf? ∧ b2.nptype? = demoBuf.nptype? :=
  C7_header_invariant_and_attach 2 15 "float32" demoBuf (by decide) (by decide) (by decide)

/-- C8: a view handed out by get_data with wprotect = true rejects any
mutation attempt with ValueError, and a subsequent independent read of the
same range through the buffer returns contents unaffected by the attempt. -/
theorem C8_write_protected_view (b : PyBuffer) (start stop i j : Nat) (x : Int) (v : NpView)
    (hv : get_data b start stop true = Except.ok v) :
    view_setitem b v i j x = Except.error PyErr.valueError ∧
    read_buffer (trySetitem b v i j x) start stop = read_buffer b start stop := by
  have hw : v.writeable = false := by
    unfold get_data at hv
    cases hr : read_buffer b start stop with
    | error e =>
        rw [hr] at hv
        exact Except.noConfusion hv
    | ok d =>
        rw [hr] at hv
        injection hv with hv
        rw [← hv]
        rfl
  have hset : view_setitem b v i j x = Except.error PyErr.valueError := by
    unfold view_setitem
    rw [hw]
    rfl
  refine ⟨hset, ?_⟩
  unfold trySetitem
  rw [hset]

/-- C8 witness: on the scenario buffer, a protected view of columns [0,2)
rejects the write of 5 at (0,0) and rereading [0,2) is unchanged. -/
theorem C8_witness :
    view_setitem demoBuf { vstart := 0, vstop := 2, writeable := false } 0 0 5 =
        Except.error PyErr.valueError ∧
      read_buffer (trySetitem demoBuf { vstart := 0, vstop := 2, writeable := false } 0 0 5) 0 2 =
        read_buffer demoBuf 0 2 :=
  C8_write_protected_view demoBuf 0 2 0 0 5
    { vstart := 0, vstop := 2, writeable := false } (by decide)

/-- C10: initialize_from_raw assigns every helper attribute except
__nSamples, so on any buffer object successfully initialized from a state
without that attribute — whether directly or through initialize — the public
nSamples property always raises AttributeError (through __getattr__, because
the object is marked initialized); the sample-capacity accessor is never
usable. -/
theorem C10_nSamples_never_usable (b0 b : PyBuffer) (raw : Raw)
    (nChannels nSamples : Int) (nptype : String) (h0 : b0.nSamples? = none) :
    (initialize_from_raw b0 raw = Except.ok b →
      prop_nSamples b = Except.error PyErr.attributeError) ∧
    (initialize_buffer b0 nChannels nSamples nptype = Except.ok b →
      prop_nSamples b = Except.error PyErr.attributeError) := by
  have key : ∀ r : Raw, initialize_from_raw b0 r = Except.ok b →
      prop_nSamples b = Except.error PyErr.attributeError := by
    intro r h
    unfold initialize_from_raw at h
    split at h
    · exact Except.noConfusion h
    split at h
    · exact Except.noConfusion h
    split at h
    · exact Except.noConfusion h
    split at h
    · exact Except.noConfusion h
    injection h with h
    subst h
    simp [prop_nSamples, getAttrPriv, h0]
  refine ⟨key raw, ?_⟩
  intro h
  unfold initialize_buffer at h
  split at h
  · exact Except.noConfusion h
  split at h
  · exact Except.noConfusion h
  split at h
  · exact Except.noConfusion h
  exact key _ h

/-- C10 witness: the scenario buffer was produced by initialize_from_raw on a
fresh object, and reading its nSamples property raises AttributeError. -/
theorem C10_witness : prop_nSamples demoBuf = Except.error PyErr.attributeError :=
  (C10_nSamples_never_usable mkBuffer demoBuf demoRaw 2 15 "float32" rfl).1 (by decide)

end Dataman
